import Mathlib

/-!
# Verification of the kilroy-face-twitter configuration/state engine

Shallow embedding of the parts of the `kilroy_face_twitter` package that the
specification's claims are about:

* `errors.py` — the `AppError` taxonomy;
* `face/parameters.py` — `Parameter.get` / `Parameter.set` with their
  short-circuit and error-wrapping behaviour;
* `face/utils.py` — `Observable` / `Loadable` / `Configurable`
  (readiness flag, `_loading` rollback, `set_config`, notifications);
* `face/face.py` — the state-gated `post` / `score` / `scrap` operations;
* `face.py` (top level) — `TwitterFace.post` restriction gating and the
  `scrap` / `_fetch` streaming pipeline with `stream.take` truncation;
* `data.py` — `TweetFields.__add__` field-requirement merging;
* `scoring/raw.py` — the relative engagement scorers;
* `restrictions.py` — `ToxicityRestriction.check`;
* `scrapers.py` — `TimelineScraper.scrap` pagination and self-filtering.

Python exceptions are modelled with `Except`; async functions are pure
functions (cooperative concurrency means every modelled path runs without
interleaving, since none of them suspends between its state accesses);
in-place mutation becomes explicit state passing, so the "deep copy" handed
to a mutator is represented by the original value (a pure value cannot be
mutated from elsewhere, which is exactly what the deep copy guarantees).
Where a function's invocation has an externally visible effect that a claim
is about (a setter being called, the poster issuing a network mutation, the
toxicity model being consulted, a page being fetched), the embedding returns
that observation explicitly (a `Bool` flag or a fetch counter).
-/

namespace KilroyFaceTwitter

/-- Embeds `kilroy_ws_server_py_sdk.AppError` as carried by `errors.py`:
an error code plus a message. -/
structure AppError where
  code : Nat
  message : String
deriving DecidableEq, Repr

/-- `errors.py`: `PARAMETER_GET_ERROR = AppError(1, "Unable to get parameter value.")`. -/
def PARAMETER_GET_ERROR : AppError := ⟨1, "Unable to get parameter value."⟩

/-- `errors.py`: `PARAMETER_SET_ERROR = AppError(2, "Unable to set parameter value.")`. -/
def PARAMETER_SET_ERROR : AppError := ⟨2, "Unable to set parameter value."⟩

/-- `errors.py`: `STATE_NOT_READY_ERROR = AppError(3, "State is not ready to be read.")`. -/
def STATE_NOT_READY_ERROR : AppError := ⟨3, "State is not ready to be read."⟩

/-- `errors.py`: `INVALID_CONFIG_ERROR = AppError(4, "Config is not valid.")`. -/
def INVALID_CONFIG_ERROR : AppError := ⟨4, "Config is not valid."⟩

/-- A Python exception as seen by the `face` package: either an `AppError`
(the `except AppError` branches re-raise these as-is) or any other exception,
identified here only by a tag (e.g. a `KeyError` from a dict lookup). -/
inductive PyErr where
  | app (e : AppError)
  | other (tag : String)
deriving DecidableEq, Repr

deriving instance DecidableEq for Except

namespace FaceUtils

/-- Embeds `face/parameters.py` `Parameter`: a binding with a name, an
underlying getter `_get` and setter `_set`, each of which may raise.  The
setter returns the mutated state (the Python code mutates `state` in place). -/
structure Param (S V : Type) where
  name : S → String
  _get : S → Except PyErr V
  _set : S → V → Except PyErr S

/-- `Parameter.get`: call `_get`; re-raise `AppError`s, wrap anything else
into `PARAMETER_GET_ERROR`. -/
def Param.get {S V : Type} (p : Param S V) (s : S) : Except PyErr V :=
  match p._get s with
  | .ok v => .ok v
  | .error (.app e) => .error (.app e)
  | .error (.other _) => .error (.app PARAMETER_GET_ERROR)

/-- `Parameter.set`: read the current value with `get` (errors propagate);
if it already equals the new value, return without touching `_set`;
otherwise call `_set`, re-raising `AppError`s and wrapping anything else
into `PARAMETER_SET_ERROR`.  The second component records whether the
underlying setter `_set` was invoked. -/
def Param.set {S V : Type} [DecidableEq V] (p : Param S V) (s : S) (v : V) :
    Except PyErr S × Bool :=
  match p.get s with
  | .error e => (.error e, false)
  | .ok cur =>
    if cur = v then (.ok s, false)
    else
      match p._set s v with
      | .ok s2 => (.ok s2, true)
      | .error (.app e) => (.error (.app e), true)
      | .error (.other _) => (.error (.app PARAMETER_SET_ERROR), true)

/-- The observable part of a `Loadable` container (`face/utils.py`): the
current composite state `__state` and the readiness flag `__ready`. -/
structure Container (S : Type) where
  state : S
  ready : Bool
deriving DecidableEq, Repr

/-- A notification published through `Observable._notify`: either a message
on the `"ready"` topic (a `Bool`) or on the `"config"` topic (the full
configuration, an assoc list standing for the JSON object).  `_notify` puts
the message into every queue subscribed to the topic, so a subscriber of
`watch_ready` / `watch_config` receives exactly the messages of its topic,
in publication order. -/
inductive Event (V : Type) where
  | ready (b : Bool)
  | config (cfg : List (String × V))
deriving DecidableEq, Repr

/-- The messages a `watch_config` subscriber receives out of a published
event sequence: the payloads of the `"config"` topic, in order. -/
def configMessages {V : Type} (events : List (Event V)) : List (List (String × V)) :=
  events.filterMap fun e =>
    match e with
    | .config cfg => some cfg
    | .ready _ => none

/-- Python-dict insertion used by `_parameters_mapping`'s comprehension:
an existing key keeps its position but its value is overwritten, a new key
is appended. -/
def insertAssoc {α : Type} (l : List (String × α)) (k : String) (v : α) :
    List (String × α) :=
  match l with
  | [] => [(k, v)]
  | (k2, v2) :: rest =>
    if k2 = k then (k2, v) :: rest else (k2, v2) :: insertAssoc rest k v

/-- Assoc-list lookup standing for a Python dict subscript. -/
def lookupAssoc {α : Type} (l : List (String × α)) (k : String) : Option α :=
  match l with
  | [] => none
  | (k2, v2) :: rest => if k2 = k then some v2 else lookupAssoc rest k

/-- `Configurable._parameters_mapping`: the dict
`{parameter.name(state): parameter for parameter in self._parameters}`. -/
def paramsMapping {S V : Type} (params : List (Param S V)) (s : S) :
    List (String × Param S V) :=
  params.foldl (fun acc p => insertAssoc acc (p.name s) p) []

/-- The dict comprehension inside `Configurable.get_config`:
`{name: await parameter.get(self._state) for name, parameter in params.items()}`;
the first getter error propagates. -/
def getConfigList {S V : Type} (m : List (String × Param S V)) (s : S) :
    Except PyErr (List (String × V)) :=
  match m with
  | [] => .ok []
  | (n, p) :: rest => do
    let v ← p.get s
    let r ← getConfigList rest s
    .ok ((n, v) :: r)

/-- `Loadable._state`: raises `STATE_NOT_READY_ERROR` when the readiness
flag is false, otherwise returns the current state.  This is the only state
access the read operations perform; it raises immediately instead of
waiting for readiness. -/
def readState {S : Type} (c : Container S) : Except PyErr S :=
  if c.ready then .ok c.state else .error (.app STATE_NOT_READY_ERROR)

/-- `Configurable.get_config`: build the parameters mapping from `_state`
(readiness-gated) and read every parameter on it. -/
def get_config {S V : Type} (params : List (Param S V)) (c : Container S) :
    Except PyErr (List (String × V)) := do
  let s ← readState c
  getConfigList (paramsMapping params s) s

/-- The `for name, value in config.items()` loop inside
`Configurable.set_config`, run against the copied state: look the name up
in the mapping (a missing key raises `KeyError`) and call `Parameter.set`;
any exception from the lookup or the setter is replaced by
`INVALID_CONFIG_ERROR` (`except Exception as e: raise INVALID_CONFIG_ERROR`).
The mapping `m` was computed once, before the loop. -/
def setConfigLoop {S V : Type} [DecidableEq V] (m : List (String × Param S V))
    (entries : List (String × V)) (s : S) : Except PyErr S :=
  match entries with
  | [] => .ok s
  | (n, v) :: rest =>
    match lookupAssoc m n with
    | none => .error (.app INVALID_CONFIG_ERROR)
    | some p =>
      match (p.set s v).1 with
      | .ok s2 => setConfigLoop m rest s2
      | .error _ => .error (.app INVALID_CONFIG_ERROR)

/-- Everything observable about one `set_config` call: its return value (or
the exception it raises), the container afterwards, and the notifications it
published, in order. -/
structure SetConfigResult (S V : Type) where
  result : Except PyErr (List (String × V))
  container : Container S
  events : List (Event V)
deriving DecidableEq, Repr

/-- `Configurable.set_config` via `Loadable._loading`:

1. `_set_ready(False)` — publish `ready False`;
2. deep-copy the current state (pure model: the same value) and run the
   setter loop on the copy;
3. if the loop raises, the copy is discarded, the original state stays
   current, and the `finally` block publishes `ready True`; the error
   propagates to the caller;
4. on success the copy is published as the new state, the old state is
   destroyed, `finally` publishes `ready True`, and then `set_config` reads
   the full new configuration with `get_config` and publishes it on the
   `"config"` topic (a getter error at this point propagates instead). -/
def set_config {S V : Type} [DecidableEq V] (params : List (Param S V))
    (c : Container S) (entries : List (String × V)) : SetConfigResult S V :=
  match setConfigLoop (paramsMapping params c.state) entries c.state with
  | .error e =>
    { result := .error e
      container := { state := c.state, ready := true }
      events := [.ready false, .ready true] }
  | .ok s2 =>
    match get_config params { state := s2, ready := true } with
    | .error e =>
      { result := .error e
        container := { state := s2, ready := true }
        events := [.ready false, .ready true] }
    | .ok cfg =>
      { result := .ok cfg
        container := { state := s2, ready := true }
        events := [.ready false, .ready true, .config cfg] }

/-- `face/face.py` `TwitterFace.post`: read `_state` (readiness-gated), then
run the processor's post pipeline on it. -/
def TwitterFace.post {S P U : Type} (c : Container S)
    (processorPost : S → P → Except PyErr U) (p : P) : Except PyErr U :=
  match readState c with
  | .ok s => processorPost s p
  | .error e => .error e

/-- `face/face.py` `TwitterFace.score`: read `_state` (readiness-gated), then
fetch the tweet and score it. -/
def TwitterFace.score {S I : Type} (c : Container S)
    (scoreImpl : S → I → Except PyErr Rat) (postId : I) : Except PyErr Rat :=
  match readState c with
  | .ok s => scoreImpl s postId
  | .error e => .error e

/-- `face/face.py` `TwitterFace.scrap`: the generator's body starts by
reading `_state` (readiness-gated) to collect needed fields, then streams
the fetched posts. -/
def TwitterFace.scrap {S O : Type} (c : Container S)
    (scrapImpl : S → Except PyErr (List O)) : Except PyErr (List O) :=
  match readState c with
  | .ok s => scrapImpl s
  | .error e => .error e

/-- A parameter binding over `Nat` state used to evaluate the theorems on
concrete inputs: `_get` returns the state itself, `_set` stores the value. -/
def natParam : Param Nat Nat where
  name := fun _ => "x"
  _get := fun s => .ok s
  _set := fun _ v => .ok v

/-- A parameter binding over `Nat` state whose underlying setter always
throws a non-`AppError` exception, used to evaluate the rollback theorems
on a concrete input. -/
def throwingParam : Param Nat Nat where
  name := fun _ => "x"
  _get := fun s => .ok s
  _set := fun _ _ => .error (.other "RuntimeError")

end FaceUtils

namespace Data

/-- The inner `merge` of `data.py` `TweetFields.__add__`:
`list(set((a or []) + (b or []))) or None`.  A Python `set` of field names is
a `Finset String`; `a or []` is `Option.getD ∅`; the trailing `or None`
turns an empty result back into `None`. -/
def mergeFields (a b : Option (Finset String)) : Option (Finset String) :=
  if a.getD ∅ ∪ b.getD ∅ = ∅ then none else some (a.getD ∅ ∪ b.getD ∅)

/-- `data.py` `TweetFields`: six independent optional field groups.  The
concrete element values are the `Literal` field names; each group's
collection is kept as a set of strings, the semantics `__add__` gives it. -/
structure TweetFields where
  expansions : Option (Finset String) := none
  media_fields : Option (Finset String) := none
  place_fields : Option (Finset String) := none
  poll_fields : Option (Finset String) := none
  tweet_fields : Option (Finset String) := none
  user_fields : Option (Finset String) := none
deriving DecidableEq

/-- `TweetFields.__add__` on the `isinstance(other, TweetFields)` branch:
merge every field group. -/
def TweetFields.add (x y : TweetFields) : TweetFields where
  expansions := mergeFields x.expansions y.expansions
  media_fields := mergeFields x.media_fields y.media_fields
  place_fields := mergeFields x.place_fields y.place_fields
  poll_fields := mergeFields x.poll_fields y.poll_fields
  tweet_fields := mergeFields x.tweet_fields y.tweet_fields
  user_fields := mergeFields x.user_fields y.user_fields

instance : Add TweetFields := ⟨TweetFields.add⟩

end Data

namespace FaceTop

/-- A Python exception in the top-level modules: the `ValueError` raised by
`TwitterFace.post` on a restriction veto, or any other exception. -/
inductive Err where
  | valueError (msg : String)
  | other (tag : String)
deriving DecidableEq, Repr

/-- `post.py` `PostTextData`. -/
structure PostTextData where
  content : String
deriving DecidableEq, Repr

/-- `post.py` `PostImageData`. -/
structure PostImageData where
  raw : String
  filename : Option String
deriving DecidableEq, Repr

/-- `post.py` `PostData`: optional text and image parts. -/
structure PostData where
  text : Option PostTextData
  image : Option PostImageData
deriving DecidableEq, Repr

/-- The slice of the `State` snapshot that `TwitterFace.post` (top-level
`face.py`) uses, with each component abstracted to its contract:
`processor.to_internal`, the optional `restriction.check`, and
`poster.post` — the poster is the only component that performs a network
mutation, and it returns the created post's `(id, url)`. -/
structure PostPipeline (C : Type) where
  to_internal : C → Except Err PostData
  restriction : Option (PostData → Except Err Bool)
  poster : PostData → Except Err (Nat × Option String)

/-- The poster call at the end of `TwitterFace.post`; the second component
records that the poster was invoked (a network mutation was attempted). -/
def runPoster {C : Type} (st : PostPipeline C) (data : PostData) :
    Except Err (Nat × Option String) × Bool :=
  match st.poster data with
  | .ok r => (.ok r, true)
  | .error e => (.error e, true)

/-- `TwitterFace.post`: convert the content with the processor; if a
restriction is active and its check rejects the data, raise
`ValueError("Post is not allowed to be posted.")`; otherwise delegate to
the poster.  The second component records whether the poster was invoked. -/
def TwitterFace.post {C : Type} (st : PostPipeline C) (content : C) :
    Except Err (Nat × Option String) × Bool :=
  match st.to_internal content with
  | .error e => (.error e, false)
  | .ok data =>
    match st.restriction with
    | some check =>
      match check data with
      | .error e => (.error e, false)
      | .ok b =>
        if b then runPoster st data
        else (.error (.valueError "Post is not allowed to be posted."), false)
    | none => runPoster st data

/-- `restrictions.py` `ToxicityRestrictionState`: the loaded detoxify model
(as its toxicity-prediction function) and the veto threshold. -/
structure ToxicityRestrictionState where
  detoxify : String → Rat
  threshold : Rat

/-- `ToxicityRestriction.check`: a post without a text part passes
immediately; otherwise the toxicity model is consulted and the post passes
iff the predicted toxicity is below the threshold.  The second component
records whether the model was consulted. -/
def ToxicityRestriction.check (st : ToxicityRestrictionState)
    (data : PostData) : Bool × Bool :=
  match data.text with
  | none => (true, false)
  | some t => (decide (st.detoxify t.content < st.threshold), true)

/-- A tweet author as the raw scorers see it (`includes.users` entries):
its id and `public_metrics["followers_count"]`. -/
structure User where
  id : Nat
  followers_count : Int
deriving DecidableEq, Repr

/-- A tweet as the raw scorers and the timeline scraper see it. -/
structure Tweet where
  id : Nat
  author_id : Nat
  like_count : Int
  retweet_count : Int
  impression_count : Option Int
deriving DecidableEq, Repr

/-- `data.py` `TweetIncludes`, restricted to the `users` expansion the
scorers use. -/
structure TweetIncludes where
  users : List User
deriving DecidableEq, Repr

/-- `next(user for user in includes.users if user.id == tweet.author_id)`:
the first included user with the tweet's author id (`none` models the
`StopIteration` when the author is missing). -/
def findAuthor (t : Tweet) (inc : TweetIncludes) : Option User :=
  inc.users.find? fun u => u.id == t.author_id

/-- `scoring/raw.py` `RelativeLikesScorer.score`:
`likes / max(followers, 1)`. -/
def RelativeLikesScorer.score (t : Tweet) (inc : TweetIncludes) : Option Rat :=
  (findAuthor t inc).map fun author =>
    (t.like_count : Rat) / ((max author.followers_count 1 : Int) : Rat)

/-- `scoring/raw.py` `RelativeRetweetsScorer.score`:
`retweets / max(followers, 1)`. -/
def RelativeRetweetsScorer.score (t : Tweet) (inc : TweetIncludes) : Option Rat :=
  (findAuthor t inc).map fun author =>
    (t.retweet_count : Rat) / ((max author.followers_count 1 : Int) : Rat)

/-- `scoring/raw.py` `RelativeImpressionsScorer.score`:
`(impressions or 0) / max(followers, 1)`. -/
def RelativeImpressionsScorer.score (t : Tweet) (inc : TweetIncludes) :
    Option Rat :=
  (findAuthor t inc).map fun author =>
    ((t.impression_count.getD 0 : Int) : Rat) /
      ((max author.followers_count 1 : Int) : Rat)

/-- One `client.v2.get_home_timeline` response: its tweets (`data or []`),
includes, and the `next_token` pagination cursor from `response.meta`. -/
structure Page where
  tweets : List Tweet
  includes : TweetIncludes
  next_token : Option String
deriving DecidableEq, Repr

/-- The fetch loop of `scrapers.py` `TimelineScraper.scrap`, over the
successive responses the client would return (the list's end stands for the
client having no further response).  Each iteration fetches one page, yields
every tweet whose author is not the authenticated user (`me`), and continues
only while the response carries a `next_token`.  Result: the emitted
`(tweet, includes)` pairs and the number of timeline fetches issued. -/
def TimelineScraper.scrap (me : Nat) :
    List Page → List (Tweet × TweetIncludes) × Nat
  | [] => ([], 0)
  | p :: rest =>
    match p.next_token with
    | none =>
      ((p.tweets.filter fun t => t.author_id != me).map fun t => (t, p.includes), 1)
    | some _ =>
      (((p.tweets.filter fun t => t.author_id != me).map fun t => (t, p.includes))
          ++ (TimelineScraper.scrap me rest).1,
        (TimelineScraper.scrap me rest).2 + 1)

/-- One upstream tweet as the `scrap` pipeline of top-level `face.py` sees
it: `_fetch` computes its score, then tries `Post.from_tweet` plus
`processor.to_external`; `transform` is that step's outcome (`error` for an
unparsable item, e.g. an unsupported content shape). -/
structure ScrapItem (α : Type) where
  id : Nat
  transform : Except Unit α
  score : Rat
deriving DecidableEq, Repr

/-- Whether the processor can transform this item (its `Post.from_tweet`
plus `to_external` step succeeds). -/
def ScrapItem.transformable {α : Type} (it : ScrapItem α) : Bool :=
  match it.transform with
  | .ok _ => true
  | .error _ => false

/-- `TwitterFace._fetch` restricted to one page of upstream tweets: items
whose transform raises are skipped (`except Exception: continue`), the rest
are emitted as `(post_id, data, score)`. -/
def fetchPage {α : Type} (page : List (ScrapItem α)) : List (Nat × α × Rat) :=
  page.filterMap fun it =>
    match it.transform with
    | .ok d => some (it.id, d, it.score)
    | .error _ => none

/-- `TwitterFace.scrap` with `stream.take(posts, limit)`: the pipeline is
pull-based, so a page is fetched only when the consumer still needs items;
once `limit` items have been emitted, `stream.take` ends the stream and
cancels the source, so no further page is fetched.  Result: the emitted
items and the number of upstream pages fetched. -/
def scrapTake {α : Type} (limit : Nat) :
    List (List (ScrapItem α)) → List (Nat × α × Rat) × Nat
  | [] => ([], 0)
  | page :: rest =>
    if limit = 0 then ([], 0)
    else
      if limit ≤ (fetchPage page).length then ((fetchPage page).take limit, 1)
      else
        (fetchPage page ++ (scrapTake (limit - (fetchPage page).length) rest).1,
          (scrapTake (limit - (fetchPage page).length) rest).2 + 1)

end FaceTop

end KilroyFaceTwitter

namespace KilroyFaceTwitter

open FaceUtils

/-- Helper: the setter loop only ever raises `INVALID_CONFIG_ERROR`. -/
theorem setConfigLoop_error_invalid {S V : Type} [DecidableEq V]
    {m : List (String × Param S V)} {entries : List (String × V)} {s : S}
    {e : PyErr} (h : setConfigLoop m entries s = .error e) :
    e = .app INVALID_CONFIG_ERROR := by
  induction entries generalizing s with
  | nil => simp [setConfigLoop] at h
  | cons hd tl ih =>
    obtain ⟨n, v⟩ := hd
    unfold setConfigLoop at h
    split at h
    · exact (Except.error.inj h).symm
    · split at h
      · exact ih h
      · exact (Except.error.inj h).symm

/-- C1: if the mutator run inside `_loading` (the parameter-setting loop of
`set_config`) raises, then after the call the container still holds the state
it had before the call (so its visible configuration is unchanged — no
partial mutation is visible), the readiness flag ends `true`, and the caller
sees `INVALID_CONFIG_ERROR`. -/
theorem set_config_rollback {S V : Type} [DecidableEq V]
    (params : List (Param S V)) (c : Container S) (entries : List (String × V))
    (e : PyErr)
    (h : setConfigLoop (paramsMapping params c.state) entries c.state = .error e) :
    set_config params c entries =
      { result := .error (.app INVALID_CONFIG_ERROR)
        container := { state := c.state, ready := true }
        events := [.ready false, .ready true] } := by
  have he := setConfigLoop_error_invalid h
  subst he
  unfold FaceUtils.set_config
  rw [h]

/-- Witness for C1: a container in state `0`, a parameter whose setter
throws; `set_config` raises `INVALID_CONFIG_ERROR`, keeps state `0` and ends
ready. -/
theorem set_config_rollback_witness :
    setConfigLoop (paramsMapping [throwingParam] (0 : Nat)) [("x", 5)] 0 =
        .error (.app INVALID_CONFIG_ERROR) ∧
      set_config [throwingParam] ⟨0, true⟩ [("x", 5)] =
        { result := .error (.app INVALID_CONFIG_ERROR)
          container := ⟨0, true⟩
          events := [.ready false, .ready true] } :=
  ⟨by decide,
    set_config_rollback [throwingParam] ⟨0, true⟩ [("x", 5)]
      (.app INVALID_CONFIG_ERROR) (by decide)⟩

/-- C2: while the readiness flag is false, `post`, `score` and `scrap` all
fail with `STATE_NOT_READY_ERROR` at their first state access — the model is
a total function that returns the error, there is no construct that waits
for readiness. -/
theorem not_ready_operations_fail {S P U I O : Type} (c : Container S)
    (processorPost : S → P → Except PyErr U) (p : P)
    (scoreImpl : S → I → Except PyErr Rat) (postId : I)
    (scrapImpl : S → Except PyErr (List O))
    (h : c.ready = false) :
    TwitterFace.post c processorPost p = .error (.app STATE_NOT_READY_ERROR) ∧
      TwitterFace.score c scoreImpl postId = .error (.app STATE_NOT_READY_ERROR) ∧
      TwitterFace.scrap c scrapImpl = .error (.app STATE_NOT_READY_ERROR) := by
  refine ⟨?_, ?_, ?_⟩ <;>
    simp [TwitterFace.post, TwitterFace.score, TwitterFace.scrap, readState, h]


/-- Witness for C2 on a concrete not-ready container: all three operations
return `STATE_NOT_READY_ERROR`. -/
theorem not_ready_operations_fail_witness :
    ((⟨0, false⟩ : Container Nat).ready = false) ∧
      (TwitterFace.post (⟨0, false⟩ : Container Nat)
          (fun s (_ : Unit) => .ok s) () = .error (.app STATE_NOT_READY_ERROR) ∧
        TwitterFace.score (⟨0, false⟩ : Container Nat)
          (fun _ (_ : Unit) => .ok 1) () = .error (.app STATE_NOT_READY_ERROR) ∧
        TwitterFace.scrap (⟨0, false⟩ : Container Nat)
          (fun s => .ok [s]) = .error (.app STATE_NOT_READY_ERROR)) :=
  ⟨rfl, not_ready_operations_fail ⟨0, false⟩ (fun s (_ : Unit) => .ok s) ()
    (fun _ (_ : Unit) => .ok 1) () (fun s => .ok [s]) rfl⟩

/-- C4 counterexample: the notification published on the `"config"` topic by
a successful `set_config` is not an `(old, new)` pair — it carries the new
configuration only.  Two runs from different prior configurations (`x = 1`
and `x = 2`), updated to the same value `x = 5`, deliver identical messages
to every `watch_config` subscriber, so the delivered event cannot carry the
old configuration. -/
theorem watch_config_event_is_new_only_counterexample :
    configMessages (set_config [natParam] (⟨1, true⟩ : Container Nat)
        [("x", 5)]).events =
      configMessages (set_config [natParam] (⟨2, true⟩ : Container Nat)
        [("x", 5)]).events ∧
      get_config [natParam] (⟨1, true⟩ : Container Nat) ≠
        get_config [natParam] (⟨2, true⟩ : Container Nat) := by
  decide

/-- C4 as amended: after every successful `set_config`, each `watch_config`
subscriber receives exactly one event, and it carries the new (logical)
configuration only: the event payload is the configuration read back from
the new state, the one `get_config` returns after the call. -/
theorem watch_config_single_new_config_event {S V : Type} [DecidableEq V]
    (params : List (Param S V)) (c : Container S) (entries : List (String × V))
    (cfg : List (String × V))
    (h : (set_config params c entries).result = .ok cfg) :
    (set_config params c entries).events =
        [.ready false, .ready true, .config cfg] ∧
      configMessages (set_config params c entries).events = [cfg] ∧
      get_config params (set_config params c entries).container = .ok cfg := by
  cases hl : setConfigLoop (paramsMapping params c.state) entries c.state with
  | error e =>
    unfold FaceUtils.set_config at h
    rw [hl] at h
    simp at h
  | ok s2 =>
    unfold FaceUtils.set_config at h ⊢
    rw [hl] at h ⊢
    dsimp only at h ⊢
    cases hg : get_config params ({ state := s2, ready := true } : Container S) with
    | error e =>
      rw [hg] at h
      simp at h
    | ok cfg2 =>
      rw [hg] at h ⊢
      dsimp only at h ⊢
      injection h with h2
      subst h2
      exact ⟨rfl, rfl, rfl⟩

/-- Witness for the amended C4 on a concrete run: updating `x` from `1` to
`5` succeeds and publishes exactly one config event, carrying the new
configuration. -/
theorem watch_config_single_new_config_event_witness :
    (set_config [natParam] (⟨1, true⟩ : Container Nat) [("x", 5)]).result =
        .ok [("x", 5)] ∧
      ((set_config [natParam] (⟨1, true⟩ : Container Nat) [("x", 5)]).events =
          [.ready false, .ready true, .config [("x", 5)]] ∧
        configMessages (set_config [natParam] (⟨1, true⟩ : Container Nat)
            [("x", 5)]).events = [[("x", 5)]] ∧
        get_config [natParam]
            (set_config [natParam] (⟨1, true⟩ : Container Nat)
              [("x", 5)]).container = .ok [("x", 5)]) :=
  ⟨by decide,
    watch_config_single_new_config_event [natParam] ⟨1, true⟩ [("x", 5)]
      [("x", 5)] (by decide)⟩

/-- C6: if `get(state)` already equals `v`, then `set(state, v)` is a no-op:
the state is returned unchanged and the underlying setter `_set` is never
invoked (second component `false`). -/
theorem param_set_unchanged_is_noop {S V : Type} [DecidableEq V]
    (p : Param S V) (s : S) (v : V)
    (h : p.get s = .ok v) : p.set s v = (.ok s, false) := by
  unfold FaceUtils.Param.set
  rw [h]
  simp

/-- Witness for C6 at a concrete binding: `natParam.get 7 = ok 7`, and
`set 7 7` returns the unchanged state without invoking the setter. -/
theorem param_set_unchanged_is_noop_witness :
    natParam.get 7 = .ok 7 ∧
      natParam.set 7 7 = (.ok 7, false) :=
  ⟨rfl, param_set_unchanged_is_noop natParam 7 7 rfl⟩

open Data

/-- Helper: `mergeFields` is commutative. -/
theorem mergeFields_comm (a b : Option (Finset String)) :
    mergeFields a b = mergeFields b a := by
  unfold Data.mergeFields
  rw [Finset.union_comm]

/-- Helper: the set a merged group denotes is the union of the operands'
sets (`none` denoting the empty set). -/
theorem mergeFields_getD (a b : Option (Finset String)) :
    (mergeFields a b).getD ∅ = a.getD ∅ ∪ b.getD ∅ := by
  unfold Data.mergeFields
  split
  · simp [*]
  · rfl

/-- Helper: merging the first operand in again is absorbed. -/
theorem mergeFields_absorb (a b : Option (Finset String)) :
    mergeFields (mergeFields a b) a = mergeFields a b := by
  by_cases h : a.getD ∅ ∪ b.getD ∅ = ∅
  · have ha : a.getD ∅ = ∅ := (Finset.union_eq_empty.mp h).1
    have hb : b.getD ∅ = ∅ := (Finset.union_eq_empty.mp h).2
    simp [Data.mergeFields, ha, hb]
  · have habs : (a.getD ∅ ∪ b.getD ∅) ∪ a.getD ∅ = a.getD ∅ ∪ b.getD ∅ :=
      Finset.union_eq_left.mpr Finset.subset_union_left
    simp [Data.mergeFields, h, habs]

/-- C5: `TweetFields` addition is commutative, merging `A, B, A` again gives
the same requirement set as merging `A, B` once, and every field group of
`A + B` is exactly the union of the operands' groups. -/
theorem tweetFields_add_comm_idem_union (A B : TweetFields) :
    A + B = B + A ∧
      (A + B) + A = A + B ∧
      ((A + B).expansions.getD ∅ = A.expansions.getD ∅ ∪ B.expansions.getD ∅ ∧
        (A + B).media_fields.getD ∅ =
          A.media_fields.getD ∅ ∪ B.media_fields.getD ∅ ∧
        (A + B).place_fields.getD ∅ =
          A.place_fields.getD ∅ ∪ B.place_fields.getD ∅ ∧
        (A + B).poll_fields.getD ∅ =
          A.poll_fields.getD ∅ ∪ B.poll_fields.getD ∅ ∧
        (A + B).tweet_fields.getD ∅ =
          A.tweet_fields.getD ∅ ∪ B.tweet_fields.getD ∅ ∧
        (A + B).user_fields.getD ∅ =
          A.user_fields.getD ∅ ∪ B.user_fields.getD ∅) := by
  refine ⟨?_, ?_, ?_, ?_, ?_, ?_, ?_, ?_⟩
  · show TweetFields.add A B = TweetFields.add B A
    unfold Data.TweetFields.add
    rw [mergeFields_comm A.expansions B.expansions,
      mergeFields_comm A.media_fields B.media_fields,
      mergeFields_comm A.place_fields B.place_fields,
      mergeFields_comm A.poll_fields B.poll_fields,
      mergeFields_comm A.tweet_fields B.tweet_fields,
      mergeFields_comm A.user_fields B.user_fields]
  · show TweetFields.add (TweetFields.add A B) A = TweetFields.add A B
    unfold Data.TweetFields.add
    dsimp only
    simp only [mergeFields_absorb]
  · exact mergeFields_getD A.expansions B.expansions
  · exact mergeFields_getD A.media_fields B.media_fields
  · exact mergeFields_getD A.place_fields B.place_fields
  · exact mergeFields_getD A.poll_fields B.poll_fields
  · exact mergeFields_getD A.tweet_fields B.tweet_fields
  · exact mergeFields_getD A.user_fields B.user_fields

open FaceTop

/-- C7: when the active restriction rejects the converted content,
`TwitterFace.post` fails with the domain validation error
`ValueError("Post is not allowed to be posted.")` and the poster — the only
place a network mutation happens — is never invoked (second component
`false`). -/
theorem post_restriction_veto_blocks_poster {C : Type} (st : PostPipeline C)
    (content : C) (data : PostData) (check : PostData → Except Err Bool)
    (h1 : st.to_internal content = .ok data)
    (h2 : st.restriction = some check)
    (h3 : check data = .ok false) :
    FaceTop.TwitterFace.post st content =
      (.error (.valueError "Post is not allowed to be posted."), false) := by
  simp [FaceTop.TwitterFace.post, h1, h2, h3]

/-- Witness for C7 on a concrete pipeline whose restriction rejects
everything: `post` raises the validation error and the poster flag stays
`false`. -/
theorem post_restriction_veto_blocks_poster_witness :
    (({ to_internal := fun _ => .ok ⟨none, none⟩
        restriction := some fun _ => .ok false
        poster := fun _ => .ok (1, none) } : PostPipeline Nat).to_internal 0 =
          .ok ⟨none, none⟩) ∧
      FaceTop.TwitterFace.post
          ({ to_internal := fun _ => .ok ⟨none, none⟩
             restriction := some fun _ => .ok false
             poster := fun _ => .ok (1, none) } : PostPipeline Nat) 0 =
        (.error (.valueError "Post is not allowed to be posted."), false) :=
  ⟨rfl,
    post_restriction_veto_blocks_poster _ 0 ⟨none, none⟩ (fun _ => .ok false)
      rfl rfl rfl⟩

/-- C8: `ToxicityRestriction.check` accepts every post whose data has no
text part, and it does so without consulting the toxicity model (second
component `false`). -/
theorem toxicity_check_accepts_textless (st : ToxicityRestrictionState)
    (data : PostData) (h : data.text = none) :
    ToxicityRestriction.check st data = (true, false) := by
  simp [ToxicityRestriction.check, h]

/-- Witness for C8: a text-free post passes a restriction whose model would
rate everything maximally toxic, and the model is not consulted. -/
theorem toxicity_check_accepts_textless_witness :
    (({ text := none, image := none } : PostData).text = none) ∧
      ToxicityRestriction.check ⟨fun _ => 1, 1 / 2⟩ ⟨none, none⟩ =
        (true, false) :=
  ⟨rfl, toxicity_check_accepts_textless ⟨fun _ => 1, 1 / 2⟩ ⟨none, none⟩ rfl⟩

/-- C9: each raw relative scorer divides its engagement count by
`max(followers_count, 1)` of the tweet's author, and that divisor is
positive — in particular nonzero — even for an author with zero followers. -/
theorem relative_scorers_divide_by_guarded_followers (t : Tweet)
    (inc : TweetIncludes) (author : User)
    (h : findAuthor t inc = some author) :
    RelativeLikesScorer.score t inc =
        some ((t.like_count : Rat) /
          ((max author.followers_count 1 : Int) : Rat)) ∧
      RelativeRetweetsScorer.score t inc =
        some ((t.retweet_count : Rat) /
          ((max author.followers_count 1 : Int) : Rat)) ∧
      RelativeImpressionsScorer.score t inc =
        some (((t.impression_count.getD 0 : Int) : Rat) /
          ((max author.followers_count 1 : Int) : Rat)) ∧
      (0 : Int) < max author.followers_count 1 ∧
      ((max author.followers_count 1 : Int) : Rat) ≠ 0 := by
  have hpos : (0 : Int) < max author.followers_count 1 :=
    lt_of_lt_of_le one_pos (le_max_right _ _)
  refine ⟨?_, ?_, ?_, hpos, ?_⟩
  · simp [RelativeLikesScorer.score, h]
  · simp [RelativeRetweetsScorer.score, h]
  · simp [RelativeImpressionsScorer.score, h]
  · exact Int.cast_ne_zero.mpr hpos.ne'

/-- Witness for C9 at an author with zero followers: the divisor is
`max(0, 1) = 1`, so each score is the plain engagement count. -/
theorem relative_scorers_divide_by_guarded_followers_witness :
    findAuthor ⟨10, 1, 4, 2, none⟩ ⟨[⟨1, 0⟩]⟩ = some ⟨1, 0⟩ ∧
      (RelativeLikesScorer.score ⟨10, 1, 4, 2, none⟩ ⟨[⟨1, 0⟩]⟩ =
          some (((4 : Int) : Rat) / ((max (0 : Int) 1 : Int) : Rat)) ∧
        RelativeRetweetsScorer.score ⟨10, 1, 4, 2, none⟩ ⟨[⟨1, 0⟩]⟩ =
          some (((2 : Int) : Rat) / ((max (0 : Int) 1 : Int) : Rat)) ∧
        RelativeImpressionsScorer.score ⟨10, 1, 4, 2, none⟩ ⟨[⟨1, 0⟩]⟩ =
          some ((((none : Option Int).getD 0 : Int) : Rat) /
            ((max (0 : Int) 1 : Int) : Rat)) ∧
        (0 : Int) < max (0 : Int) 1 ∧
        ((max (0 : Int) 1 : Int) : Rat) ≠ 0) :=
  ⟨rfl,
    relative_scorers_divide_by_guarded_followers ⟨10, 1, 4, 2, none⟩
      ⟨[⟨1, 0⟩]⟩ ⟨1, 0⟩ rfl⟩

/-- C10: the timeline scraper never emits a tweet authored by the
authenticated user (`me`), and it keeps paginating exactly until a response
carries no `next_token`: the number of fetches is the length of the run of
responses with a `next_token`, plus one for the terminating response
(bounded by the responses available). -/
theorem timeline_scrap_filters_self_until_no_token (me : Nat)
    (pages : List Page) :
    (TimelineScraper.scrap me pages).1.all
        (fun x => x.1.author_id != me) = true ∧
      (TimelineScraper.scrap me pages).2 =
        min pages.length
          ((pages.takeWhile fun p => p.next_token.isSome).length + 1) := by
  induction pages with
  | nil => simp [TimelineScraper.scrap]
  | cons p rest ih =>
    have hall : ∀ inc : TweetIncludes,
        ((p.tweets.filter fun t => t.author_id != me).map
            fun t => (t, inc)).all (fun x => x.1.author_id != me) = true := by
      intro inc
      rw [List.all_eq_true]
      intro x hx
      rw [List.mem_map] at hx
      obtain ⟨t, ht, rfl⟩ := hx
      exact (List.mem_filter.mp ht).2
    cases hp : p.next_token with
    | none =>
      unfold FaceTop.TimelineScraper.scrap
      rw [hp]
      refine ⟨hall p.includes, ?_⟩
      rw [List.takeWhile_cons, hp]
      simp [Nat.min_eq_right (Nat.succ_le_succ (Nat.zero_le _))]
    | some tok =>
      unfold FaceTop.TimelineScraper.scrap
      rw [hp]
      refine ⟨?_, ?_⟩
      · rw [List.all_append, hall p.includes, ih.1]
        rfl
      · rw [List.takeWhile_cons, hp, ih.2]
        simp [Nat.succ_min_succ]

/-- Helper: `_fetch` distributes over concatenated upstream pages. -/
theorem fetchPage_append {α : Type} (l1 l2 : List (ScrapItem α)) :
    fetchPage (l1 ++ l2) = fetchPage l1 ++ fetchPage l2 :=
  List.filterMap_append ..

/-- Helper: `_fetch` emits exactly the transformable items. -/
theorem length_fetchPage {α : Type} (l : List (ScrapItem α)) :
    (fetchPage l).length = l.countP ScrapItem.transformable := by
  induction l with
  | nil => rfl
  | cons a l ih =>
    unfold FaceTop.fetchPage at ih ⊢
    rw [List.filterMap_cons, List.countP_cons]
    cases h : a.transform with
    | ok d => simp [ScrapItem.transformable, h, ih]
    | error e => simp [ScrapItem.transformable, h, ih]

/-- Helper: with a positive limit, the truncated pipeline emits the first
`limit` successfully transformed items of the upstream sequence — skipped
items are not counted against the limit and are not fatal. -/
theorem scrapTake_emits {α : Type} :
    ∀ (limit : Nat) (pages : List (List (ScrapItem α))), 0 < limit →
      (scrapTake limit pages).1 = (fetchPage pages.flatten).take limit := by
  intro limit pages
  induction pages generalizing limit with
  | nil =>
    intro _
    simp [scrapTake, fetchPage]
  | cons page rest ih =>
    intro hl
    have hne : ¬ limit = 0 := Nat.pos_iff_ne_zero.mp hl
    rw [List.flatten_cons, fetchPage_append]
    unfold FaceTop.scrapTake
    rw [if_neg hne]
    by_cases hle : limit ≤ (fetchPage page).length
    · rw [if_pos hle, List.take_append_eq_append_take,
        Nat.sub_eq_zero_of_le hle, List.take_zero, List.append_nil]
    · rw [if_neg hle]
      have hlt : (fetchPage page).length < limit := Nat.not_le.mp hle
      rw [ih _ (Nat.sub_pos_of_lt hlt), List.take_append_eq_append_take,
        List.take_of_length_le (Nat.le_of_lt hlt)]

/-- Helper: when the upstream holds at least `limit` transformable items,
the pipeline fetches exactly as many pages as needed — the fetched prefix
contains the `limit`-th emitted item, and every strictly shorter prefix
contains fewer than `limit` of them (so no fetch happens after the
`limit`-th emission). -/
theorem scrapTake_fetch_minimal {α : Type} :
    ∀ (limit : Nat) (pages : List (List (ScrapItem α))), 0 < limit →
      limit ≤ (fetchPage pages.flatten).length →
      limit ≤ (fetchPage (pages.take (scrapTake limit pages).2).flatten).length ∧
        ∀ j, j < (scrapTake limit pages).2 →
          (fetchPage (pages.take j).flatten).length < limit := by
  intro limit pages
  induction pages generalizing limit with
  | nil =>
    intro hl htotal
    simp [fetchPage] at htotal
    omega
  | cons page rest ih =>
    intro hl htotal
    have hne : ¬ limit = 0 := Nat.pos_iff_ne_zero.mp hl
    rw [List.flatten_cons, fetchPage_append, List.length_append] at htotal
    unfold FaceTop.scrapTake
    rw [if_neg hne]
    by_cases hle : limit ≤ (fetchPage page).length
    · rw [if_pos hle]
      constructor
      · rw [List.take_succ_cons, List.take_zero, List.flatten_cons,
          List.flatten_nil, List.append_nil]
        exact hle
      · intro j hj
        have hj0 : j = 0 := Nat.lt_one_iff.mp hj
        subst hj0
        simpa [fetchPage] using hl
    · rw [if_neg hle]
      have hlt : (fetchPage page).length < limit := Nat.not_le.mp hle
      have hrest : limit - (fetchPage page).length ≤
          (fetchPage rest.flatten).length := by omega
      obtain ⟨ih1, ih2⟩ := ih _ (Nat.sub_pos_of_lt hlt) hrest
      constructor
      · rw [List.take_succ_cons, List.flatten_cons, fetchPage_append,
          List.length_append]
        omega
      · intro j hj
        cases j with
        | zero => simpa [fetchPage] using hl
        | succ j2 =>
          have hj2 : j2 < (scrapTake (limit - (fetchPage page).length) rest).2 :=
            Nat.lt_of_succ_lt_succ hj
          have := ih2 j2 hj2
          rw [List.take_succ_cons, List.flatten_cons, fetchPage_append,
            List.length_append]
          omega

/-- C3: over an upstream source yielding, across its pages, 5 items the
processor can transform and 2 it cannot, interleaved in any way,
`scrap(limit=3)` emits exactly 3 items — the per-item transform failures
are skipped, not counted against the limit and not fatal — and it issues no
upstream page fetch beyond the page carrying the 3rd emitted item: every
fetched prefix short of the last holds fewer than 3 transformable items,
and the fetched prefix holds at least 3. -/
theorem scrap_limit_three_emits_and_stops {α : Type}
    (pages : List (List (ScrapItem α)))
    (hvalid : pages.flatten.countP ScrapItem.transformable = 5)
    (hbad : pages.flatten.countP (fun it => ! it.transformable) = 2) :
    (scrapTake 3 pages).1.length = 3 ∧
      (scrapTake 3 pages).1 = (fetchPage pages.flatten).take 3 ∧
      3 ≤ (fetchPage (pages.take (scrapTake 3 pages).2).flatten).length ∧
      ∀ j, j < (scrapTake 3 pages).2 →
        (fetchPage (pages.take j).flatten).length < 3 := by
  have hlen : (fetchPage pages.flatten).length = 5 := by
    rw [length_fetchPage, hvalid]
  have htotal : 3 ≤ (fetchPage pages.flatten).length := by omega
  have hemits := scrapTake_emits 3 pages (by omega)
  obtain ⟨h1, h2⟩ := scrapTake_fetch_minimal 3 pages (by omega) htotal
  refine ⟨?_, hemits, h1, h2⟩
  rw [hemits, List.length_take, hlen]
  decide

/-- Witness for C3: two pages holding 5 transformable and 2 unparsable
items interleaved; the pipeline emits exactly the first 3 transformable
items and stops after the second page fetch. -/
theorem scrap_limit_three_emits_and_stops_witness :
    (([[⟨1, .ok 1, 0⟩, ⟨2, .error (), 0⟩, ⟨3, .ok 3, 0⟩],
        [⟨4, .ok 4, 0⟩, ⟨5, .error (), 0⟩, ⟨6, .ok 6, 0⟩, ⟨7, .ok 7, 0⟩]] :
          List (List (ScrapItem Nat))).flatten.countP
        ScrapItem.transformable = 5) ∧
      (((scrapTake 3 ([[⟨1, .ok 1, 0⟩, ⟨2, .error (), 0⟩, ⟨3, .ok 3, 0⟩],
            [⟨4, .ok 4, 0⟩, ⟨5, .error (), 0⟩, ⟨6, .ok 6, 0⟩, ⟨7, .ok 7, 0⟩]] :
              List (List (ScrapItem Nat)))).1.length = 3) ∧
        (scrapTake 3 ([[⟨1, .ok 1, 0⟩, ⟨2, .error (), 0⟩, ⟨3, .ok 3, 0⟩],
            [⟨4, .ok 4, 0⟩, ⟨5, .error (), 0⟩, ⟨6, .ok 6, 0⟩, ⟨7, .ok 7, 0⟩]] :
              List (List (ScrapItem Nat)))).2 = 2) :=
  ⟨by decide,
    (scrap_limit_three_emits_and_stops
      ([[⟨1, .ok 1, 0⟩, ⟨2, .error (), 0⟩, ⟨3, .ok 3, 0⟩],
        [⟨4, .ok 4, 0⟩, ⟨5, .error (), 0⟩, ⟨6, .ok 6, 0⟩, ⟨7, .ok 7, 0⟩]] :
          List (List (ScrapItem Nat))) (by decide) (by decide)).1,
    by decide⟩

end KilroyFaceTwitter
